import Mathlib

/-!
Shallow embedding of the persistence / authorization layer of the
role-based dashboard application (files `src/config.py`, `src/main.py`,
`src/auth/authentication.py`, `src/database/db_manager.py`).

Timestamps are modelled as rationals (`ℚ`) denoting SQLite julian days:
`julianday(t)` is just `t`, and the elapsed-hours computation
`(julianday(t1) - julianday(t0)) * 24` becomes `(t1 - t0) * 24`.
Table state is modelled as a `List` of row records; a SQL
`UPDATE ... WHERE id = ?` becomes a `List.map` that rewrites the matching
rows, and `cursor.rowcount > 0` becomes `List.any` on the id predicate.
-/

/-- `DASHBOARD_PERMISSIONS` from `src/config.py` lines 15-20: the fixed
role → allowed-dashboards table. -/
def DASHBOARD_PERMISSIONS : List (String × List String) :=
  [("admin", ["executive", "cybersecurity", "data_science", "it_operations", "ai_assistant"]),
   ("cybersecurity", ["executive", "cybersecurity", "ai_assistant"]),
   ("data_science", ["executive", "data_science", "ai_assistant"]),
   ("it_operations", ["executive", "it_operations", "ai_assistant"])]

/-- The spec's `allowed_dashboards(role)`: look the role up in the fixed
table; an unknown role yields the empty list (fail closed). -/
def allowed_dashboards (role : String) : List String :=
  match DASHBOARD_PERMISSIONS.find? (fun p => p.1 = role) with
  | some p => p.2
  | none => []

/-- The spec's `authorize(role, dashboard_id)`: membership in the fixed
table (dashboard ids use the code's names: the spec's "security" is
`"cybersecurity"`, "data" is `"data_science"`, "it_ops" is
`"it_operations"`, "assistant" is `"ai_assistant"`). -/
def authorize (role : String) (dashboard : String) : Bool :=
  (allowed_dashboards role).contains dashboard

/-- The access gate actually applied at the point of rendering in
`show_main_application` (`src/main.py` lines 194-222): the executive and
AI-assistant dashboards are rendered with no role check; the three
specialized dashboards check `user_role in ["admin", <owner-role>]`;
any other selection renders nothing. -/
def renderGate (role : String) (dashboard : String) : Bool :=
  if dashboard = "executive" then true
  else if dashboard = "cybersecurity" then role = "admin" ∨ role = "cybersecurity"
  else if dashboard = "data_science" then role = "admin" ∨ role = "data_science"
  else if dashboard = "it_operations" then role = "admin" ∨ role = "it_operations"
  else if dashboard = "ai_assistant" then true
  else false

/-- The four known role names (`src/main.py` line 109 register selectbox,
keys of `DASHBOARD_PERMISSIONS`). -/
def knownRoles : List String :=
  ["admin", "cybersecurity", "data_science", "it_operations"]

/-- A row of the `cyber_incidents` table (`src/database/db_manager.py`
lines 25-36). -/
structure Incident where
  id : Nat
  title : String
  description : String
  threat_type : String
  severity : String
  status : String
  created_at : ℚ
  resolved_at : Option ℚ
  resolution_time_hours : Option ℚ
  assigned_to : Option String
  deriving DecidableEq, Repr

/-- A row of the `it_tickets` table (`src/database/db_manager.py`
lines 49-61). -/
structure Ticket where
  id : Nat
  title : String
  description : String
  status : String
  assigned_to : String
  current_stage : String
  priority : String
  created_at : ℚ
  resolved_at : Option ℚ
  time_in_stage_hours : Option ℚ
  category : Option String
  deriving DecidableEq, Repr

/-- A row of the `datasets_metadata` table (`src/database/db_manager.py`
lines 37-48). -/
structure Dataset where
  id : Nat
  name : String
  source_department : String
  size_mb : ℚ
  row_count : Nat
  column_count : Nat
  quality_score : Option ℚ
  last_accessed : Option ℚ
  created_at : ℚ
  sensitivity : Option String
  deriving DecidableEq, Repr

/-- The per-row effect of `update_incident_status`'s UPDATE statement
(`src/database/db_manager.py` lines 243-253), at current time `now`:
`status` is overwritten; `resolved_at` becomes `CURRENT_TIMESTAMP` when
the new status is `'Resolved'` (else kept); `resolution_time_hours`
becomes `(julianday(CURRENT_TIMESTAMP) - julianday(created_at)) * 24`
only when the new status is `'Resolved'` AND it is still NULL (else
kept). -/
def applyIncidentUpdate (status : String) (now : ℚ) (r : Incident) : Incident :=
  { r with
    status := status
    resolved_at := if status = "Resolved" then some now else r.resolved_at
    resolution_time_hours :=
      if status = "Resolved" ∧ r.resolution_time_hours = none then
        some ((now - r.created_at) * 24)
      else r.resolution_time_hours }

/-- `DatabaseManager.update_incident_status` (`src/database/db_manager.py`
lines 238-260) on table state `store` at current time `now`: rewrites the
rows whose `id` matches and reports `cursor.rowcount > 0`. -/
def update_incident_status (store : List Incident) (incident_id : Nat)
    (status : String) (now : ℚ) : Bool × List Incident :=
  (store.any (fun r => r.id = incident_id),
   store.map (fun r => if r.id = incident_id then applyIncidentUpdate status now r else r))

/-- The per-row effect of `update_ticket_status`'s UPDATE statement
(`src/database/db_manager.py` lines 206-211): `status` and
`current_stage` are overwritten together; `resolved_at` becomes
`CURRENT_TIMESTAMP` whenever the new status is `'Resolved'` or
`'Closed'` (else kept). -/
def applyTicketUpdate (status : String) (current_stage : String) (now : ℚ)
    (r : Ticket) : Ticket :=
  { r with
    status := status
    current_stage := current_stage
    resolved_at :=
      if status = "Resolved" ∨ status = "Closed" then some now else r.resolved_at }

/-- `DatabaseManager.update_ticket_status` (`src/database/db_manager.py`
lines 201-218) on table state `store` at current time `now`. -/
def update_ticket_status (store : List Ticket) (ticket_id : Nat)
    (status : String) (current_stage : String) (now : ℚ) : Bool × List Ticket :=
  (store.any (fun r => r.id = ticket_id),
   store.map (fun r => if r.id = ticket_id then applyTicketUpdate status current_stage now r else r))

/-- `DatabaseManager.delete_it_ticket` (`src/database/db_manager.py`
lines 262-274): `DELETE FROM it_tickets WHERE id = ?`, reporting
`cursor.rowcount > 0`. -/
def delete_it_ticket (store : List Ticket) (ticket_id : Nat) : Bool × List Ticket :=
  (store.any (fun r => r.id = ticket_id),
   store.filter (fun r => ¬ r.id = ticket_id))

/-- A storage-level fault (disk I/O failure, lock timeout) raised by the
underlying engine while a statement runs. -/
structure StorageFault where
  msg : String
  deriving DecidableEq, Repr

/-- `update_incident_status` with fault injection, reflecting its
`try/except` (`src/database/db_manager.py` lines 241-258): the broad
`except Exception` catches any storage fault, prints, and returns
`False` with the table untouched — so the function never lets a fault
escape; the `Except` result is always `Except.ok`. -/
def update_incident_statusE (fault : Option StorageFault) (store : List Incident)
    (incident_id : Nat) (status : String) (now : ℚ) :
    Except StorageFault (Bool × List Incident) :=
  match fault with
  | some _ => Except.ok (false, store)
  | none => Except.ok (update_incident_status store incident_id status now)

/-- `delete_it_ticket` with fault injection, reflecting its `try/except`
(`src/database/db_manager.py` lines 264-272): any storage fault is
caught and turned into `False`. -/
def delete_it_ticketE (fault : Option StorageFault) (store : List Ticket)
    (ticket_id : Nat) : Except StorageFault (Bool × List Ticket) :=
  match fault with
  | some _ => Except.ok (false, store)
  | none => Except.ok (delete_it_ticket store ticket_id)

/-- A bcrypt hash string. `bcrypt` is an external library (not part of
this repository's sources); following the spec's description of
`hash`/`verify` — "a self-describing encoded string containing algorithm
parameters + salt + digest", digest determined by salt and password — it
is modelled as an ideal salted hash: the encoded string is the pair of
the salt and the digest of (salt, password), and the ideal digest is
collision-free, here literally the password tagged by the salt. -/
structure BcryptHash where
  salt : Nat
  digest : String
  deriving DecidableEq, Repr

/-- `bcrypt.hashpw(password, salt)`: deterministic in (password, salt);
the caller supplies a fresh salt per call via `bcrypt.gensalt()`. -/
def hashpw (password : String) (salt : Nat) : BcryptHash :=
  ⟨salt, password⟩

/-- `bcrypt.checkpw(password, hash)`: recompute the digest with the
embedded salt and compare. -/
def checkpw (password : String) (h : BcryptHash) : Bool :=
  hashpw password h.salt = h

/-- `AuthenticationSystem.hash_password` (`src/auth/authentication.py`
lines 16-19): `bcrypt.hashpw` with a fresh salt; the salt drawn by
`bcrypt.gensalt()` is passed in explicitly. -/
def hash_password (password : String) (salt : Nat) : BcryptHash :=
  hashpw password salt

/-- `AuthenticationSystem.verify_password` (`src/auth/authentication.py`
lines 21-25): `bcrypt.checkpw`, with any exception turned into `False`
(the malformed-hash case does not arise for well-formed `BcryptHash`
values). -/
def verify_password (password : String) (h : BcryptHash) : Bool :=
  checkpw password h

/-- A row of the `users` table (`src/database/db_manager.py`
lines 19-24). `username` is the primary key. -/
structure UserRow where
  username : String
  password_hash : BcryptHash
  role : String
  deriving DecidableEq, Repr

/-- `DatabaseManager.get_user` (`src/database/db_manager.py`
lines 101-111): `SELECT ... WHERE username = ?`, first match or none. -/
def get_user (users : List UserRow) (username : String) : Option UserRow :=
  users.find? (fun u => u.username = username)

/-- `DatabaseManager.create_user` (`src/database/db_manager.py`
lines 86-99): plain INSERT; a duplicate primary key raises
`sqlite3.IntegrityError`, caught and returned as `False` with the table
unchanged. -/
def create_user (users : List UserRow) (username : String)
    (password_hash : BcryptHash) (role : String) : Bool × List UserRow :=
  if users.any (fun u => u.username = username) then
    (false, users)
  else
    (true, users ++ [⟨username, password_hash, role⟩])

/-- `AuthenticationSystem.register_user` (`src/auth/authentication.py`
lines 27-43): look the username up first; if it exists return `False`
without touching the table, else hash the password with a fresh salt and
insert via `create_user`. -/
def register_user (users : List UserRow) (username password role : String)
    (salt : Nat) : Bool × List UserRow :=
  match get_user users username with
  | some _ => (false, users)
  | none => create_user users username (hash_password password salt) role

/-- `AuthenticationSystem.login_user` (`src/auth/authentication.py`
lines 45-53): fetch the row and verify the password against the stored
hash; `none` on unknown user or wrong password. -/
def login_user (users : List UserRow) (username password : String) :
    Option UserRow :=
  match get_user users username with
  | some user => if verify_password password user.password_hash then some user else none
  | none => none

/-- The four default accounts seeded by `init_database`
(`src/database/db_manager.py` lines 68-73), each hashed with its own
fresh salt. -/
def defaultUsers (s1 s2 s3 s4 : Nat) : List UserRow :=
  [⟨"admin", hashpw "admin123" s1, "admin"⟩,
   ⟨"cyber", hashpw "cyber123" s2, "cybersecurity"⟩,
   ⟨"data", hashpw "data123" s3, "data_science"⟩,
   ⟨"it", hashpw "it123" s4, "it_operations"⟩]

/-- The usernames of the four default accounts. -/
def defaultUsernames : List String :=
  ["admin", "cyber", "data", "it"]

/-- One iteration of the seeding loop (`src/database/db_manager.py`
lines 75-81): `SELECT COUNT(*) ... WHERE username = ?`; insert only when
the count is zero. -/
def seedStep (users : List UserRow) (u : UserRow) : List UserRow :=
  if users.any (fun r => r.username = u.username) then users
  else users ++ [u]

/-- The seeding part of `DatabaseManager.init_database`
(`src/database/db_manager.py` lines 67-83): fold the per-username
insert-if-absent step over the four default users (schema creation is
`CREATE TABLE IF NOT EXISTS` and does not touch rows, so it is identity
on the modelled table state). -/
def init_database (s1 s2 s3 s4 : Nat) (users : List UserRow) : List UserRow :=
  (defaultUsers s1 s2 s3 s4).foldl seedStep users

/-- `init_database` run once per element of `salts` (each run draws four
fresh salts). -/
def init_databaseN (salts : List (Nat × Nat × Nat × Nat))
    (users : List UserRow) : List UserRow :=
  salts.foldl (fun acc s => init_database s.1 s.2.1 s.2.2.1 s.2.2.2 acc) users

/-- Number of rows of the users table carrying a given username. -/
def countUser (username : String) (users : List UserRow) : Nat :=
  (users.filter (fun r => r.username = username)).length

/-- Full database state: the four tables of `init_database`. -/
structure DBState where
  users : List UserRow
  incidents : List Incident
  datasets : List Dataset
  tickets : List Ticket
  deriving Repr

/-- The aggregate returned by `get_statistics`
(`src/database/db_manager.py` lines 304-334). -/
structure Stats where
  user_count : Nat
  total_incidents : Nat
  open_incidents : Nat
  total_datasets : Nat
  avg_quality : ℚ
  total_tickets : Nat
  open_tickets : Nat
  deriving DecidableEq, Repr

/-- SQL `COALESCE(AVG(quality_score), 0)`: `AVG` ignores NULLs and is
NULL over zero non-NULL values, which `COALESCE` maps to 0. -/
def avgQuality (datasets : List Dataset) : ℚ :=
  let qs := datasets.filterMap (fun d => d.quality_score)
  if qs.length = 0 then 0 else qs.sum / qs.length

/-- `DatabaseManager.get_statistics` (`src/database/db_manager.py`
lines 304-334): the seven COUNT/AVG aggregates. -/
def get_statistics (db : DBState) : Stats :=
  { user_count := db.users.length
    total_incidents := db.incidents.length
    open_incidents := (db.incidents.filter (fun i => i.status = "Open")).length
    total_datasets := db.datasets.length
    avg_quality := avgQuality db.datasets
    total_tickets := db.tickets.length
    open_tickets := (db.tickets.filter (fun t => t.status = "Open")).length }

/-- C9: `get_statistics()` on a store whose incident, dataset and ticket
tables are empty (users arbitrary, e.g. the four seeded accounts)
returns zero for every record count and a defined numeric zero — not an
error — for the average quality score, since SQL `AVG` over zero rows is
NULL and `COALESCE(AVG(quality_score), 0)` maps that to 0. -/
theorem C9_statistics_empty_store (us : List UserRow) :
    (get_statistics ⟨us, [], [], []⟩).total_incidents = 0 ∧
    (get_statistics ⟨us, [], [], []⟩).open_incidents = 0 ∧
    (get_statistics ⟨us, [], [], []⟩).total_datasets = 0 ∧
    (get_statistics ⟨us, [], [], []⟩).avg_quality = 0 ∧
    (get_statistics ⟨us, [], [], []⟩).total_tickets = 0 ∧
    (get_statistics ⟨us, [], [], []⟩).open_tickets = 0 ∧
    (get_statistics ⟨us, [], [], []⟩).user_count = us.length := by
  refine ⟨rfl, rfl, rfl, rfl, rfl, rfl, rfl⟩

/-- C5: a status update aimed at an id not present in the store returns
`false`, inserts no row and leaves every existing row unchanged (the
table state is literally equal before and after); an update aimed at a
present id returns `true`. Both for incident and for ticket status
updates. -/
theorem C5_unknown_id_update_false
    (incs : List Incident) (tks : List Ticket) (id : Nat)
    (st stage : String) (now : ℚ)
    (hinc : ∀ r ∈ incs, r.id ≠ id) (htk : ∀ r ∈ tks, r.id ≠ id) :
    update_incident_status incs id st now = (false, incs) ∧
    update_ticket_status tks id st stage now = (false, tks) ∧
    (∀ (incs2 : List Incident) (r : Incident), r ∈ incs2 → r.id = id →
      (update_incident_status incs2 id st now).1 = true) ∧
    (∀ (tks2 : List Ticket) (r : Ticket), r ∈ tks2 → r.id = id →
      (update_ticket_status tks2 id st stage now).1 = true) := by
  refine ⟨?_, ?_, ?_, ?_⟩
  · have h1 : incs.any (fun r => r.id = id) = false := by
      simp only [List.any_eq_false, decide_eq_true_eq]
      exact hinc
    have h2 : incs.map (fun r => if r.id = id then applyIncidentUpdate st now r else r) = incs := by
      have := List.map_congr_left (l := incs)
        (f := fun r => if r.id = id then applyIncidentUpdate st now r else r) (g := fun r => r)
        (fun r hr => if_neg (hinc r hr))
      simpa using this
    simp [update_incident_status, h1, h2]
  · have h1 : tks.any (fun r => r.id = id) = false := by
      simp only [List.any_eq_false, decide_eq_true_eq]
      exact htk
    have h2 : tks.map (fun r => if r.id = id then applyTicketUpdate st stage now r else r) = tks := by
      have := List.map_congr_left (l := tks)
        (f := fun r => if r.id = id then applyTicketUpdate st stage now r else r) (g := fun r => r)
        (fun r hr => if_neg (htk r hr))
      simpa using this
    simp [update_ticket_status, h1, h2]
  · intro incs2 r hr hid
    simp only [update_incident_status, List.any_eq_true, decide_eq_true_eq]
    exact ⟨r, hr, hid⟩
  · intro tks2 r hr hid
    simp only [update_ticket_status, List.any_eq_true, decide_eq_true_eq]
    exact ⟨r, hr, hid⟩

theorem C5_witness :
    update_incident_status [] 9999 "Resolved" 0 = (false, []) ∧
    update_ticket_status [] 9999 "Resolved" "Resolved" 0 = (false, []) := by
  have h := C5_unknown_id_update_false [] [] 9999 "Resolved" "Resolved" 0
    (by intro r hr; cases hr) (by intro r hr; cases hr)
  exact ⟨h.1, h.2.1⟩

/-- C2: for a security incident whose `resolution_time_hours` is still
NULL, the update transitioning it to Resolved at time `now` sets
`resolution_time_hours` to the elapsed hours `(now - created_at) * 24`,
computed by the store from `created_at` (which the update never
changes); a non-Resolved update leaves it NULL; and once it holds a
value, every later status update — Resolved after a reopening
included — leaves that value unchanged. -/
theorem C2_resolution_time_set_once
    (r : Incident) (now : ℚ) (st : String) (v : ℚ) :
    (applyIncidentUpdate st now r).created_at = r.created_at ∧
    (r.resolution_time_hours = none →
      (applyIncidentUpdate "Resolved" now r).resolution_time_hours =
        some ((now - r.created_at) * 24)) ∧
    (r.resolution_time_hours = none → st ≠ "Resolved" →
      (applyIncidentUpdate st now r).resolution_time_hours = none) ∧
    (r.resolution_time_hours = some v →
      (applyIncidentUpdate st now r).resolution_time_hours = some v) := by
  refine ⟨rfl, ?_, ?_, ?_⟩
  · intro h
    simp [applyIncidentUpdate, h]
  · intro h hst
    simp [applyIncidentUpdate, h, hst]
  · intro h
    simp [applyIncidentUpdate, h]

theorem C2_witness :
    (applyIncidentUpdate "Resolved" 2
        ⟨1, "inc", "", "Phishing", "High", "Open", 1, none, none, none⟩).resolution_time_hours =
      some 24 ∧
    (applyIncidentUpdate "Open" 3
        ⟨1, "inc", "", "Phishing", "High", "Resolved", 1, some 2, some 24, none⟩).resolution_time_hours =
      some 24 := by
  have h1 := (C2_resolution_time_set_once
    ⟨1, "inc", "", "Phishing", "High", "Open", 1, none, none, none⟩ 2 "Resolved" 0).2.1 rfl
  have h2 := (C2_resolution_time_set_once
    ⟨1, "inc", "", "Phishing", "High", "Resolved", 1, some 2, some 24, none⟩ 3 "Open" 24).2.2.2 rfl
  refine ⟨?_, h2⟩
  rw [h1]
  norm_num

/-- C10: on an incident that is already resolved (`resolved_at = some t`
and `resolution_time_hours = some v`), a further update with status
"Resolved" at time `now` overwrites `resolved_at` to `some now` while
leaving `resolution_time_hours` at `some v`, and an update with any
other status leaves both fields untouched — `resolved_at` is not
set-once, unlike `resolution_time_hours`. -/
theorem C10_resolved_at_overwritten
    (r : Incident) (t v now : ℚ) (st : String)
    (hra : r.resolved_at = some t) (hrt : r.resolution_time_hours = some v) :
    ((applyIncidentUpdate "Resolved" now r).resolved_at = some now ∧
     (applyIncidentUpdate "Resolved" now r).resolution_time_hours = some v) ∧
    (st ≠ "Resolved" →
      (applyIncidentUpdate st now r).resolved_at = some t ∧
      (applyIncidentUpdate st now r).resolution_time_hours = some v) := by
  constructor
  · constructor
    · simp [applyIncidentUpdate]
    · simp [applyIncidentUpdate, hrt]
  · intro hst
    constructor
    · simp [applyIncidentUpdate, hst, hra]
    · simp [applyIncidentUpdate, hrt]

theorem C10_witness :
    ((applyIncidentUpdate "Resolved" 5
        ⟨1, "inc", "", "Malware", "Low", "Resolved", 0, some 2, some 48, none⟩).resolved_at = some 5 ∧
     (applyIncidentUpdate "Resolved" 5
        ⟨1, "inc", "", "Malware", "Low", "Resolved", 0, some 2, some 48, none⟩).resolution_time_hours = some 48) ∧
    ((applyIncidentUpdate "Open" 5
        ⟨1, "inc", "", "Malware", "Low", "Resolved", 0, some 2, some 48, none⟩).resolved_at = some 2 ∧
     (applyIncidentUpdate "Open" 5
        ⟨1, "inc", "", "Malware", "Low", "Resolved", 0, some 2, some 48, none⟩).resolution_time_hours = some 48) := by
  have h := C10_resolved_at_overwritten
    ⟨1, "inc", "", "Malware", "Low", "Resolved", 0, some 2, some 48, none⟩ 2 48 5 "Open" rfl rfl
  exact ⟨h.1, h.2 (by decide)⟩

/-- A concrete already-resolved IT ticket: `resolved_at` was set to
julian time 1 by an earlier Resolved transition. -/
def ticketA : Ticket :=
  ⟨1, "vpn down", "", "Resolved", "bob", "Resolved", "Medium", 0, some 1, none, none⟩

/-- C3 counterexample: `update_ticket_status`'s SQL guards `resolved_at`
only on the NEW status being Resolved/Closed, with no IS-NULL check, so
a second identical Resolved transition at time 2 re-sets the
already-populated `resolved_at` from `some 1` to `some 2` — `resolved_at`
for tickets is not set-once. -/
theorem C3_counterexample :
    ticketA.resolved_at = some 1 ∧
    ((update_ticket_status [ticketA] 1 "Resolved" "Resolved" 2).2.map
      Ticket.resolved_at) = [some 2] := by
  constructor
  · rfl
  · rfl

/-- C3 amended: the combined update writes `status` and `current_stage`
together and sets `resolved_at` to the current timestamp exactly when
the new status is Resolved or Closed — overwriting any previously-set
value on a repeated Resolved/Closed transition — and leaves it
unchanged for every other status; all other fields are untouched. -/
theorem C3_ticket_resolved_at_rule
    (r : Ticket) (st stage : String) (now : ℚ) :
    (applyTicketUpdate st stage now r).status = st ∧
    (applyTicketUpdate st stage now r).current_stage = stage ∧
    (applyTicketUpdate st stage now r).resolved_at =
      (if st = "Resolved" ∨ st = "Closed" then some now else r.resolved_at) ∧
    (applyTicketUpdate st stage now r).id = r.id ∧
    (applyTicketUpdate st stage now r).created_at = r.created_at ∧
    (applyTicketUpdate st stage now r).time_in_stage_hours = r.time_in_stage_hours := by
  exact ⟨rfl, rfl, rfl, rfl, rfl, rfl⟩

/-- C4 counterexample: a storage fault (e.g. disk I/O failure) during
`update_incident_status` is swallowed by the broad `except Exception`
and returned as the same `Except.ok (false, store)` that an unknown id
produces — the write does NOT propagate a typed failure, and its fault
outcome is indistinguishable from not-found. -/
theorem C4_counterexample :
    update_incident_statusE (some ⟨"disk I/O error"⟩) [] 9999 "Resolved" 0 =
      update_incident_statusE none [] 9999 "Resolved" 0 ∧
    update_incident_statusE (some ⟨"disk I/O error"⟩) [] 9999 "Resolved" 0 =
      Except.ok (false, []) := by
  constructor
  · rfl
  · rfl

/-- C4 amended: write operations (`update_incident_status`,
`delete_it_ticket`) catch every underlying-storage error inside the
store layer and translate it to the boolean `false` with the table left
unchanged; no typed failure ever escapes a write (the result is always
`Except.ok`), so callers cannot distinguish a transient fault from
not-found. -/
theorem C4_write_faults_swallowed
    (f : StorageFault) (incs : List Incident) (id : Nat) (st : String)
    (now : ℚ) (tks : List Ticket) (tid : Nat) :
    update_incident_statusE (some f) incs id st now = Except.ok (false, incs) ∧
    delete_it_ticketE (some f) tks tid = Except.ok (false, tks) ∧
    (update_incident_statusE (some f) incs id st now).isOk = true ∧
    (delete_it_ticketE (some f) tks tid).isOk = true ∧
    update_incident_statusE none incs id st now =
      Except.ok (update_incident_status incs id st now) ∧
    delete_it_ticketE none tks tid = Except.ok (delete_it_ticket tks tid) := by
  exact ⟨rfl, rfl, rfl, rfl, rfl, rfl⟩

/-- C6: registering a username that already exists returns `false`
(an ordinary return value, not an exception — `register_user` is total)
and leaves the table unchanged: after `register("alice","pw1","admin")`
on an empty table followed by `register("alice","pw2","data_science")`,
the second call reports the conflict, the table still holds exactly the
original row, and `login("alice","pw1")` succeeds with the original role
and password hash. The salts `s1`, `s2` are the fresh `bcrypt.gensalt()`
draws of the two calls. -/
theorem C6_registration_uniqueness (s1 s2 : Nat) :
    (register_user [] "alice" "pw1" "admin" s1).1 = true ∧
    (register_user [] "alice" "pw1" "admin" s1).2 =
      [⟨"alice", hash_password "pw1" s1, "admin"⟩] ∧
    (register_user (register_user [] "alice" "pw1" "admin" s1).2
        "alice" "pw2" "data_science" s2).1 = false ∧
    (register_user (register_user [] "alice" "pw1" "admin" s1).2
        "alice" "pw2" "data_science" s2).2 =
      (register_user [] "alice" "pw1" "admin" s1).2 ∧
    login_user (register_user (register_user [] "alice" "pw1" "admin" s1).2
        "alice" "pw2" "data_science" s2).2 "alice" "pw1" =
      some ⟨"alice", hash_password "pw1" s1, "admin"⟩ := by
  refine ⟨?_, ?_, ?_, ?_, ?_⟩ <;>
    simp [register_user, get_user, create_user, login_user, verify_password,
      checkpw, hash_password, hashpw, List.find?, List.any]

/-- C7: the password hash is non-deterministic across calls — two calls
on the same password with distinct fresh salts yield distinct hash
strings — yet verification round-trips: `verify(P, hash(P))` is `true`
for each of them, and `verify(P', hash(P))` is `false` for any
`P' ≠ P`. -/
theorem C7_hash_verify_roundtrip
    (p q : String) (s1 s2 : Nat) (hs : s1 ≠ s2) (hpq : q ≠ p) :
    hash_password p s1 ≠ hash_password p s2 ∧
    verify_password p (hash_password p s1) = true ∧
    verify_password p (hash_password p s2) = true ∧
    verify_password q (hash_password p s1) = false := by
  refine ⟨?_, ?_, ?_, ?_⟩
  · simp [hash_password, hashpw, hs]
  · simp [verify_password, checkpw, hash_password, hashpw]
  · simp [verify_password, checkpw, hash_password, hashpw]
  · simp [verify_password, checkpw, hash_password, hashpw, hpq]

theorem C7_witness :
    (0 : Nat) ≠ 1 ∧ ("pw2" : String) ≠ "pw1" ∧
    (hash_password "pw1" 0 ≠ hash_password "pw1" 1 ∧
     verify_password "pw1" (hash_password "pw1" 0) = true ∧
     verify_password "pw1" (hash_password "pw1" 1) = true ∧
     verify_password "pw2" (hash_password "pw1" 0) = false) :=
  ⟨by decide, by decide,
   C7_hash_verify_roundtrip "pw1" "pw2" 0 1 (by decide) (by decide)⟩

lemma find_permissions_none (role : String) (h : role ∉ knownRoles) :
    DASHBOARD_PERMISSIONS.find? (fun p => p.1 = role) = none := by
  rw [List.find?_eq_none]
  intro x hx hpx
  apply h
  simp only [decide_eq_true_eq] at hpx
  simp only [DASHBOARD_PERMISSIONS, List.mem_cons, List.not_mem_nil, or_false] at hx
  rcases hx with rfl | rfl | rfl | rfl <;>
    (rw [← hpx]; simp [knownRoles])

lemma allowed_dashboards_unknown (role : String) (h : role ∉ knownRoles) :
    allowed_dashboards role = [] := by
  unfold allowed_dashboards
  rw [find_permissions_none role h]

/-- C1 counterexample: the spec's access decision is fail-closed
(`authorize "unknown_role" "executive" = false`), but the gate actually
applied at the point of rendering in `show_main_application` renders the
executive dashboard for EVERY authenticated role — an unknown role
included — so the fixed-table decision does not govern rendering of the
executive (nor the AI-assistant) dashboard. -/
theorem C1_counterexample :
    authorize "unknown_role" "executive" = false ∧
    renderGate "unknown_role" "executive" = true := by
  exact ⟨by decide, rfl⟩

/-- C1 amended: `authorize` itself equals the fixed role table and is
fail-closed — any role outside the four known roles is authorized for no
dashboard, and the three cited values hold (spec dashboard name
"security" is the code's "cybersecurity") — and the rendering gate of
`show_main_application` coincides with `authorize` for the
cybersecurity, data_science and it_operations dashboards; but the
executive and AI-assistant dashboards are rendered for every
authenticated role without consulting the table, so the fail-closed
denial at the point of rendering holds only for the three specialized
dashboards. -/
theorem C1_authorize_fail_closed
    (role : String) (dash : String) (hrole : role ∉ knownRoles) :
    authorize role dash = false ∧
    authorize "unknown_role" "executive" = false ∧
    authorize "it_operations" "cybersecurity" = false ∧
    authorize "admin" "cybersecurity" = true ∧
    (∀ ρ, renderGate ρ "cybersecurity" = authorize ρ "cybersecurity" ∧
          renderGate ρ "data_science" = authorize ρ "data_science" ∧
          renderGate ρ "it_operations" = authorize ρ "it_operations") ∧
    (∀ ρ, renderGate ρ "executive" = true ∧ renderGate ρ "ai_assistant" = true) := by
  have hunknown : ∀ σ, σ ∉ knownRoles → ∀ d, authorize σ d = false := by
    intro σ hσ d
    simp [authorize, allowed_dashboards_unknown σ hσ]
  refine ⟨hunknown role hrole dash, by decide, by decide, by decide, ?_, ?_⟩
  · intro ρ
    by_cases h1 : ρ = "admin"
    · subst h1; exact ⟨by decide, by decide, by decide⟩
    by_cases h2 : ρ = "cybersecurity"
    · subst h2; exact ⟨by decide, by decide, by decide⟩
    by_cases h3 : ρ = "data_science"
    · subst h3; exact ⟨by decide, by decide, by decide⟩
    by_cases h4 : ρ = "it_operations"
    · subst h4; exact ⟨by decide, by decide, by decide⟩
    have hk : ρ ∉ knownRoles := by
      simp only [knownRoles, List.mem_cons, List.not_mem_nil, or_false]
      push_neg
      exact ⟨h1, h2, h3, h4⟩
    refine ⟨?_, ?_, ?_⟩ <;>
      simp [renderGate, hunknown ρ hk, h1, h2, h3, h4]
  · intro ρ
    exact ⟨rfl, rfl⟩

theorem C1_witness :
    "unknown_role" ∉ knownRoles ∧
    authorize "unknown_role" "it_operations" = false :=
  ⟨by decide, (C1_authorize_fail_closed "unknown_role" "it_operations" (by decide)).1⟩

lemma countUser_append (u : String) (l1 l2 : List UserRow) :
    countUser u (l1 ++ l2) = countUser u l1 + countUser u l2 := by
  simp [countUser, List.filter_append]

lemma countUser_singleton (u : String) (x : UserRow) :
    countUser u [x] = if x.username = u then 1 else 0 := by
  by_cases h : x.username = u <;> simp [countUser, h]

lemma any_username_iff (users : List UserRow) (u : String) :
    (users.any fun r => r.username = u) = true ↔ 0 < countUser u users := by
  rw [List.any_eq_true, countUser, List.length_pos_iff_exists_mem]
  constructor
  · rintro ⟨r, hr, h⟩
    exact ⟨r, List.mem_filter.mpr ⟨hr, h⟩⟩
  · rintro ⟨r, hr⟩
    rcases List.mem_filter.mp hr with ⟨h1, h2⟩
    exact ⟨r, h1, h2⟩

lemma seedStep_count_ne (users : List UserRow) (x : UserRow) (u : String)
    (h : x.username ≠ u) :
    countUser u (seedStep users x) = countUser u users := by
  unfold seedStep
  split
  · rfl
  · rw [countUser_append, countUser_singleton, if_neg h]
    omega

lemma seedStep_count_self (users : List UserRow) (x : UserRow) (u : String)
    (hx : x.username = u) (h : countUser u users ≤ 1) :
    countUser u (seedStep users x) = 1 := by
  subst hx
  unfold seedStep
  split
  · next hany =>
    have := (any_username_iff users x.username).mp hany
    omega
  · next hany =>
    have hz : ¬ 0 < countUser x.username users := fun hpos =>
      hany ((any_username_iff users x.username).mpr hpos)
    rw [countUser_append, countUser_singleton, if_pos rfl]
    omega

lemma seedStep_mem (users : List UserRow) (x : UserRow) (r : UserRow)
    (h : r ∈ users) : r ∈ seedStep users x := by
  unfold seedStep
  split
  · exact h
  · exact List.mem_append_left _ h

lemma init_database_eq (s1 s2 s3 s4 : Nat) (db : List UserRow) :
    init_database s1 s2 s3 s4 db =
      seedStep (seedStep (seedStep (seedStep db
        ⟨"admin", hashpw "admin123" s1, "admin"⟩)
        ⟨"cyber", hashpw "cyber123" s2, "cybersecurity"⟩)
        ⟨"data", hashpw "data123" s3, "data_science"⟩)
        ⟨"it", hashpw "it123" s4, "it_operations"⟩ := rfl

lemma init_database_count (s1 s2 s3 s4 : Nat) (db : List UserRow)
    (h : ∀ u ∈ defaultUsernames, countUser u db ≤ 1) :
    ∀ u ∈ defaultUsernames, countUser u (init_database s1 s2 s3 s4 db) = 1 := by
  intro u hu
  have hadmin := h "admin" (by simp [defaultUsernames])
  have hcyber := h "cyber" (by simp [defaultUsernames])
  have hdata := h "data" (by simp [defaultUsernames])
  have hit := h "it" (by simp [defaultUsernames])
  rw [init_database_eq]
  simp only [defaultUsernames, List.mem_cons, List.not_mem_nil, or_false] at hu
  rcases hu with rfl | rfl | rfl | rfl
  · rw [seedStep_count_ne _ _ _ (by simp), seedStep_count_ne _ _ _ (by simp),
      seedStep_count_ne _ _ _ (by simp)]
    exact seedStep_count_self _ _ _ rfl hadmin
  · rw [seedStep_count_ne _ _ _ (by simp), seedStep_count_ne _ _ _ (by simp)]
    refine seedStep_count_self _ _ _ rfl ?_
    rw [seedStep_count_ne _ _ _ (by simp)]
    exact hcyber
  · rw [seedStep_count_ne _ _ _ (by simp)]
    refine seedStep_count_self _ _ _ rfl ?_
    rw [seedStep_count_ne _ _ _ (by simp), seedStep_count_ne _ _ _ (by simp)]
    exact hdata
  · refine seedStep_count_self _ _ _ rfl ?_
    rw [seedStep_count_ne _ _ _ (by simp), seedStep_count_ne _ _ _ (by simp),
      seedStep_count_ne _ _ _ (by simp)]
    exact hit

lemma init_databaseN_count :
    ∀ (salts : List (Nat × Nat × Nat × Nat)) (db : List UserRow),
      salts ≠ [] → (∀ u ∈ defaultUsernames, countUser u db ≤ 1) →
      ∀ u ∈ defaultUsernames, countUser u (init_databaseN salts db) = 1 := by
  intro salts
  induction salts with
  | nil =>
    intro db hne
    exact absurd rfl hne
  | cons s rest ih =>
    intro db _ h u hu
    have hstep := init_database_count s.1 s.2.1 s.2.2.1 s.2.2.2 db h
    have hN : init_databaseN (s :: rest) db =
        init_databaseN rest (init_database s.1 s.2.1 s.2.2.1 s.2.2.2 db) := rfl
    rw [hN]
    rcases eq_or_ne rest [] with hr | hr
    · subst hr
      exact hstep u hu
    · exact ih _ hr (fun v hv => (hstep v hv).le) u hu

lemma init_database_mem (s1 s2 s3 s4 : Nat) (db : List UserRow) (r : UserRow)
    (h : r ∈ db) : r ∈ init_database s1 s2 s3 s4 db := by
  rw [init_database_eq]
  exact seedStep_mem _ _ _ (seedStep_mem _ _ _ (seedStep_mem _ _ _ (seedStep_mem _ _ _ h)))

lemma init_databaseN_mem :
    ∀ (salts : List (Nat × Nat × Nat × Nat)) (db : List UserRow) (r : UserRow),
      r ∈ db → r ∈ init_databaseN salts db := by
  intro salts
  induction salts with
  | nil =>
    intro db r h
    exact h
  | cons s rest ih =>
    intro db r h
    exact ih _ _ (init_database_mem _ _ _ _ _ _ h)

/-- C8: seeding is idempotent — running `init_database` any positive
number of times (each run drawing its own fresh salts), against any user
table in which each default username occurs at most once (the
primary-key invariant, covering partial seeding), leaves exactly one row
per default username, and every pre-existing row survives unchanged
(the seeding loop only ever appends rows whose username is absent). -/
theorem C8_idempotent_seeding
    (salts : List (Nat × Nat × Nat × Nat)) (db : List UserRow)
    (hruns : salts ≠ []) (hpk : ∀ u ∈ defaultUsernames, countUser u db ≤ 1) :
    (∀ u ∈ defaultUsernames, countUser u (init_databaseN salts db) = 1) ∧
    (∀ r ∈ db, r ∈ init_databaseN salts db) :=
  ⟨init_databaseN_count salts db hruns hpk,
   fun r hr => init_databaseN_mem salts db r hr⟩

theorem C8_witness :
    ([((0 : Nat), (1 : Nat), (2 : Nat), (3 : Nat)), (4, 5, 6, 7)] :
        List (Nat × Nat × Nat × Nat)) ≠ [] ∧
    (∀ u ∈ defaultUsernames,
      countUser u [⟨"cyber", hashpw "mypw" 9, "cybersecurity"⟩] ≤ 1) ∧
    ((∀ u ∈ defaultUsernames,
        countUser u (init_databaseN [(0, 1, 2, 3), (4, 5, 6, 7)]
          [⟨"cyber", hashpw "mypw" 9, "cybersecurity"⟩]) = 1) ∧
     (∀ r ∈ [(⟨"cyber", hashpw "mypw" 9, "cybersecurity"⟩ : UserRow)],
        r ∈ init_databaseN [(0, 1, 2, 3), (4, 5, 6, 7)]
          [⟨"cyber", hashpw "mypw" 9, "cybersecurity"⟩])) :=
  ⟨by decide, by decide,
   C8_idempotent_seeding [(0, 1, 2, 3), (4, 5, 6, 7)]
     [⟨"cyber", hashpw "mypw" 9, "cybersecurity"⟩] (by decide) (by decide)⟩
